import Mathlib

/-!
Verification of the ResourceTracker resource-update route
(`src/app/api/resources/[id]/route.ts`).

The repository file contains two near-duplicate variants of the `PUT`
handler (separated in the source by a document separator); both are
embedded here as `putVariant1` and `putVariant2`.

Modelling conventions:
* JavaScript values that can appear in a parsed JSON request body or in a
  database row are modelled by `JSVal` (integers, strings, `null`,
  `undefined`, `NaN`).  Floating-point numbers other than integers are not
  needed by any claim and are not modelled; the status classifier, whose
  contract is about exact percentages, is modelled over `ℚ`.
* A request body is a record of optional fields: `none` means the key is
  absent (`'k' in body` is false), `some v` means the key is present with
  value `v`.  Destructuring an absent key yields `JSVal.jundef`, as in
  JavaScript.
* The database state visible to one request is the row for the addressed
  resource id (`Option Resource`) plus the list of its history rows,
  newest first.
* External effects other than database writes are logged: `ExtCall.awardPointsCall`
  would record an invocation of the imported `awardPoints` (the
  ScoringEngine); the handlers never emit it because the source never
  calls the function it imports.
-/

namespace ResourceTracker

/-- JavaScript values occurring in request bodies and rows: integer numbers,
strings, `null`, `undefined`, and `NaN` (which can arise from arithmetic on
non-numeric values). -/
inductive JSVal where
  | jnum (n : Int)
  | jstr (s : String)
  | jnull
  | jundef
  | jnan
deriving DecidableEq, Repr

/-- JavaScript truthiness: `0`, `""`, `null`, `undefined`, `NaN` are falsy. -/
def JSVal.truthy : JSVal → Bool
  | .jnum n => n ≠ 0
  | .jstr s => s ≠ ""
  | .jnull => false
  | .jundef => false
  | .jnan => false

/-- JavaScript `ToNumber`, restricted to the values modelled here; `none`
stands for `NaN`.  `null` converts to `0`; `undefined` and `NaN` convert to
`NaN`; a string converts to `0` when blank, otherwise it is parsed as an
optionally signed integer literal (non-integer numeric literals are outside
the modelled value set). -/
def JSVal.toNumber : JSVal → Option Int
  | .jnum n => some n
  | .jnull => some 0
  | .jundef => none
  | .jnan => none
  | .jstr s => if s.trim = "" then some 0 else s.trim.toInt?

/-- JavaScript subtraction `a - b` over the modelled values: both operands go
through `ToNumber`; if either is `NaN` the result is `NaN`. -/
def jsSub (a b : JSVal) : JSVal :=
  match a.toNumber, b.toNumber with
  | some x, some y => .jnum (x - y)
  | _, _ => .jnan

/-- The four health tiers returned by `calculateResourceStatus`. -/
inductive RStatus where
  | above_target
  | at_target
  | below_target
  | critical
deriving DecidableEq, Repr

/-- Embedding of `calculateResourceStatus` (identical in both source
variants): `!targetQuantity || targetQuantity <= 0` collapses to
"absent or ≤ 0" (for a number `t`, `!t` holds exactly when `t = 0`);
otherwise the tier is read off `percentage = quantity / targetQuantity * 100`
with inclusive lower bounds 150 / 100 / 50. -/
def calculateResourceStatus (quantity : ℚ) (targetQuantity : Option ℚ) : RStatus :=
  match targetQuantity with
  | none => .at_target
  | some t =>
    if t ≤ 0 then .at_target
    else
      if 150 ≤ quantity / t * 100 then .above_target
      else if 100 ≤ quantity / t * 100 then .at_target
      else if 50 ≤ quantity / t * 100 then .below_target
      else .critical

/-- A resource row, with the columns the route reads or writes. -/
structure Resource where
  id : String
  name : JSVal
  imageUrl : JSVal
  category : JSVal
  description : JSVal
  quantity : JSVal
  targetQuantity : JSVal
  multiplier : JSVal
  lastUpdatedBy : String
  updatedAt : Nat
deriving DecidableEq, Repr

/-- A resource-history row, with the columns the route inserts. -/
structure HistoryRecord where
  id : String
  resourceId : String
  previousQuantity : JSVal
  newQuantity : JSVal
  changeAmount : JSVal
  changeType : JSVal
  updatedBy : String
  reason : JSVal
  createdAt : Nat
deriving DecidableEq, Repr

/-- A parsed JSON request body, as a record of optional fields: `none` means
the key is absent from the body, `some v` that it is present with value `v`. -/
structure Body where
  quantity : Option JSVal := none
  updateType : Option JSVal := none
  value : Option JSVal := none
  reason : Option JSVal := none
  name : Option JSVal := none
  imageUrl : Option JSVal := none
  category : Option JSVal := none
  description : Option JSVal := none
  targetQuantity : Option JSVal := none
  multiplier : Option JSVal := none
deriving DecidableEq, Repr

/-- The database state visible to one request: the row for the addressed
resource id, and that resource's history rows, newest first. -/
structure DBState where
  res : Option Resource
  hist : List HistoryRecord
deriving DecidableEq, Repr

/-- The response returned by the handler (after the authorization check,
which is an external collaborator). -/
inductive PutResponse where
  | ok (message : String)
  | notFound
deriving DecidableEq, Repr

/-- External calls other than database writes that a handler could make;
`awardPointsCall` would be an invocation of the imported ScoringEngine
entry point `awardPoints`. -/
inductive ExtCall where
  | awardPointsCall
deriving DecidableEq, Repr

/-- Result of running a PUT handler: the database state after the request,
the response, and the log of external calls made. -/
structure PutRun where
  state : DBState
  response : PutResponse
  calls : List ExtCall
deriving DecidableEq, Repr

/-- Embedding of the first `PUT` variant (route.ts lines 25–95), from the
`const existing = current[0]` point onward (session lookup and authorization
are external collaborators).  `rid` is `params.id`, `userId` is
`getUserIdentifier(session)`, `newHistId` is the `nanoid()` result, `now`
the `new Date()` timestamp.

Quantity path (`'quantity' in body`): destructures
`{ quantity, updateType = 'absolute', value, reason }`, computes
`changeAmount = updateType === 'relative' ? value : quantity - previousQuantity`,
writes `quantity`, `lastUpdatedBy`, `updatedAt` to the resource row, inserts
one history row with `newQuantity: quantity`, and responds
`{ message: 'Quantity updated' }`.

Metadata path: spreads `...(name && { name })` (and likewise for `imageUrl`,
`category`, `description`, applied only when truthy) and
`...(targetQuantity !== undefined && { targetQuantity })` (and likewise for
`multiplier`, applied whenever not `undefined`), stamps `updatedAt`, and
responds `{ message: 'Metadata updated' }`.  It does not touch `quantity`,
`lastUpdatedBy`, or the history table.

Neither path calls the imported `awardPoints` or `calculateResourceStatus`,
so the external-call log is empty. -/
def putVariant1 (st : DBState) (rid userId newHistId : String) (now : Nat)
    (body : Body) : PutRun :=
  match st.res with
  | none => ⟨st, PutResponse.notFound, []⟩
  | some existing =>
    if body.quantity.isSome then
      ⟨⟨some { existing with
            quantity := body.quantity.getD JSVal.jundef,
            lastUpdatedBy := userId,
            updatedAt := now },
        { id := newHistId,
          resourceId := rid,
          previousQuantity := existing.quantity,
          newQuantity := body.quantity.getD JSVal.jundef,
          changeAmount :=
            if body.updateType.getD (JSVal.jstr "absolute") = JSVal.jstr "relative" then
              body.value.getD JSVal.jundef
            else
              jsSub (body.quantity.getD JSVal.jundef) existing.quantity,
          changeType := body.updateType.getD (JSVal.jstr "absolute"),
          updatedBy := userId,
          reason := body.reason.getD JSVal.jundef,
          createdAt := now } :: st.hist⟩,
       PutResponse.ok "Quantity updated", []⟩
    else
      ⟨⟨some { existing with
            name := if (body.name.getD JSVal.jundef).truthy then
                body.name.getD JSVal.jundef else existing.name,
            imageUrl := if (body.imageUrl.getD JSVal.jundef).truthy then
                body.imageUrl.getD JSVal.jundef else existing.imageUrl,
            category := if (body.category.getD JSVal.jundef).truthy then
                body.category.getD JSVal.jundef else existing.category,
            description := if (body.description.getD JSVal.jundef).truthy then
                body.description.getD JSVal.jundef else existing.description,
            targetQuantity := if body.targetQuantity.getD JSVal.jundef ≠ JSVal.jundef then
                body.targetQuantity.getD JSVal.jundef else existing.targetQuantity,
            multiplier := if body.multiplier.getD JSVal.jundef ≠ JSVal.jundef then
                body.multiplier.getD JSVal.jundef else existing.multiplier,
            updatedAt := now },
        st.hist⟩,
       PutResponse.ok "Metadata updated", []⟩

/-- Embedding of the second `PUT` variant (route.ts lines 161–241).  Its
quantity path is textually identical to variant 1's.  Its metadata path
builds an `updates` record with `if ('name' in body) updates.name = body.name`
for each of the six fields — keyed on key presence, so falsy values are
applied — stamps `updatedAt`, and responds `{ message: 'Metadata updated' }`.
Like variant 1 it never calls the imported `awardPoints` or its
`calculateResourceStatus`. -/
def putVariant2 (st : DBState) (rid userId newHistId : String) (now : Nat)
    (body : Body) : PutRun :=
  match st.res with
  | none => ⟨st, PutResponse.notFound, []⟩
  | some existing =>
    if body.quantity.isSome then
      ⟨⟨some { existing with
            quantity := body.quantity.getD JSVal.jundef,
            lastUpdatedBy := userId,
            updatedAt := now },
        { id := newHistId,
          resourceId := rid,
          previousQuantity := existing.quantity,
          newQuantity := body.quantity.getD JSVal.jundef,
          changeAmount :=
            if body.updateType.getD (JSVal.jstr "absolute") = JSVal.jstr "relative" then
              body.value.getD JSVal.jundef
            else
              jsSub (body.quantity.getD JSVal.jundef) existing.quantity,
          changeType := body.updateType.getD (JSVal.jstr "absolute"),
          updatedBy := userId,
          reason := body.reason.getD JSVal.jundef,
          createdAt := now } :: st.hist⟩,
       PutResponse.ok "Quantity updated", []⟩
    else
      ⟨⟨some { existing with
            name := body.name.getD existing.name,
            imageUrl := body.imageUrl.getD existing.imageUrl,
            category := body.category.getD existing.category,
            description := body.description.getD existing.description,
            targetQuantity := body.targetQuantity.getD existing.targetQuantity,
            multiplier := body.multiplier.getD existing.multiplier,
            updatedAt := now },
        st.hist⟩,
       PutResponse.ok "Metadata updated", []⟩

/-- The quantity path issues two separate sequential awaits against `db`
— `db.update(resources)...` then `db.insert(resourceHistory)...` — with no
enclosing `db.transaction`.  This is the store state after the first await
has committed, i.e. the state left behind when the history insert then
fails: the resource row already carries the new quantity, `lastUpdatedBy`
and `updatedAt`, and no history row has been written. -/
def quantityPathAfterFirstWrite (st : DBState) (userId : String) (now : Nat)
    (body : Body) : DBState :=
  match st.res with
  | none => st
  | some existing =>
    ⟨some { existing with
        quantity := body.quantity.getD JSVal.jundef,
        lastUpdatedBy := userId,
        updatedAt := now },
      st.hist⟩

/-- The committed quantity path of variant 1 is exactly the first write
followed by prepending the history row: the crash-state model is the first
half of the real path. -/
theorem putVariant1_quantity_decomposes (st : DBState) (rid userId newHistId : String)
    (now : Nat) (body : Body) (e : Resource) (hres : st.res = some e)
    (hq : body.quantity.isSome) :
    (putVariant1 st rid userId newHistId now body).state.res
      = (quantityPathAfterFirstWrite st userId now body).res
    ∧ (putVariant1 st rid userId newHistId now body).state.hist.tail
      = (quantityPathAfterFirstWrite st userId now body).hist := by
  simp [putVariant1, quantityPathAfterFirstWrite, hres, hq]

/-- Concrete resource row used by witnesses and counterexamples, with
quantity `q`: the spec §8 scenario resource has `sampleRow 40`
(quantity 40, target 100, multiplier 1). -/
def sampleRow (q : Int) : Resource where
  id := "r1"
  name := JSVal.jstr "Iron"
  imageUrl := JSVal.jnull
  category := JSVal.jstr "Raw"
  description := JSVal.jstr "Old"
  quantity := JSVal.jnum q
  targetQuantity := JSVal.jnum 100
  multiplier := JSVal.jnum 1
  lastUpdatedBy := "u0"
  updatedAt := 0

/-- Concrete state: the row `sampleRow q` with an empty history. -/
def sampleState (q : Int) : DBState := ⟨some (sampleRow q), []⟩

/-- Concrete body of the spec §8 scenario: an absolute update to 120
(updateType unspecified, hence absolute). -/
def absBody120 : Body := { quantity := some (JSVal.jnum 120) }

/-- Concrete relative-update body whose caller also submitted the computed
new quantity 70 alongside the delta −30. -/
def relBody70 : Body where
  quantity := some (JSVal.jnum 70)
  updateType := some (JSVal.jstr "relative")
  value := some (JSVal.jnum (-30))

/-- Concrete relative-update body with delta −30 whose caller submitted
quantity 0 (not the previous quantity plus the delta). -/
def relBody0 : Body where
  quantity := some (JSVal.jnum 0)
  updateType := some (JSVal.jstr "relative")
  value := some (JSVal.jnum (-30))

/-- C8: for every non-negative quantity q and nullable target t,
`calculateResourceStatus` returns `at_target` when t is absent or ≤ 0;
otherwise, with percentage = q/t × 100, it returns `above_target` when
percentage ≥ 150, `at_target` when 100 ≤ percentage < 150, `below_target`
when 50 ≤ percentage < 100, and `critical` when percentage < 50 — the
boundary values 50, 100, 150 land in the higher tier. -/
theorem classify_contract (q : ℚ) (hq : 0 ≤ q) (t : ℚ) (ht : 0 < t) :
    calculateResourceStatus q none = RStatus.at_target
    ∧ (∀ u : ℚ, u ≤ 0 → calculateResourceStatus q (some u) = RStatus.at_target)
    ∧ (150 ≤ q / t * 100 → calculateResourceStatus q (some t) = RStatus.above_target)
    ∧ (100 ≤ q / t * 100 → q / t * 100 < 150 →
        calculateResourceStatus q (some t) = RStatus.at_target)
    ∧ (50 ≤ q / t * 100 → q / t * 100 < 100 →
        calculateResourceStatus q (some t) = RStatus.below_target)
    ∧ (q / t * 100 < 50 → calculateResourceStatus q (some t) = RStatus.critical) := by
  refine ⟨rfl, ?_, ?_, ?_, ?_, ?_⟩
  · intro u hu
    simp only [calculateResourceStatus]
    rw [if_pos hu]
  · intro h
    simp only [calculateResourceStatus]
    split_ifs <;> first | rfl | linarith
  · intro h h'
    simp only [calculateResourceStatus]
    split_ifs <;> first | rfl | linarith
  · intro h h'
    simp only [calculateResourceStatus]
    split_ifs <;> first | rfl | linarith
  · intro h
    simp only [calculateResourceStatus]
    split_ifs <;> first | rfl | linarith

/-- Witness for C8 at quantity 3, target 2: percentage is exactly 150, which
belongs to the higher tier `above_target`. -/
theorem classify_contract_witness :
    calculateResourceStatus 3 (some 2) = RStatus.above_target :=
  (classify_contract 3 (by norm_num) 2 (by norm_num)).2.2.1 (by norm_num)

/-- C9: in absolute mode (explicit `updateType: 'absolute'` or updateType
absent, which defaults to absolute), a quantity update against previous
quantity `prev` with requested quantity `q` persists quantity `q` and
records changeAmount `q − prev` (and changeType `absolute`), in both PUT
variants. -/
theorem absolute_update_contract (st : DBState) (rid userId newHistId : String)
    (now : Nat) (body : Body) (e : Resource) (prev q : Int)
    (hres : st.res = some e) (hprev : e.quantity = JSVal.jnum prev)
    (hq : body.quantity = some (JSVal.jnum q))
    (hmode : body.updateType = none ∨ body.updateType = some (JSVal.jstr "absolute")) :
    ((putVariant1 st rid userId newHistId now body).state.res.map Resource.quantity
        = some (JSVal.jnum q))
    ∧ ((putVariant1 st rid userId newHistId now body).state.hist.head?.map
          HistoryRecord.changeAmount = some (JSVal.jnum (q - prev)))
    ∧ ((putVariant1 st rid userId newHistId now body).state.hist.head?.map
          HistoryRecord.changeType = some (JSVal.jstr "absolute"))
    ∧ ((putVariant2 st rid userId newHistId now body).state.res.map Resource.quantity
        = some (JSVal.jnum q))
    ∧ ((putVariant2 st rid userId newHistId now body).state.hist.head?.map
          HistoryRecord.changeAmount = some (JSVal.jnum (q - prev))) := by
  rcases hmode with hmode | hmode <;>
    simp [putVariant1, putVariant2, hres, hprev, hq, hmode, jsSub, JSVal.toNumber]

/-- Witness for C9: updating the scenario resource (quantity 40) to 120 with
updateType unspecified persists 120 and records changeAmount 80. -/
theorem absolute_update_contract_witness :
    ((putVariant1 (sampleState 40) "r1" "alice" "h1" 1 absBody120).state.res.map
        Resource.quantity = some (JSVal.jnum 120))
    ∧ ((putVariant1 (sampleState 40) "r1" "alice" "h1" 1 absBody120).state.hist.head?.map
        HistoryRecord.changeAmount = some (JSVal.jnum 80)) :=
  ⟨(absolute_update_contract (sampleState 40) "r1" "alice" "h1" 1 absBody120
      (sampleRow 40) 40 120 rfl rfl rfl (Or.inl rfl)).1,
   (absolute_update_contract (sampleState 40) "r1" "alice" "h1" 1 absBody120
      (sampleRow 40) 40 120 rfl rfl rfl (Or.inl rfl)).2.1⟩

/-- C10: after every quantity-path update, in both modes and both variants,
the quantity persisted on the resource row equals the `newQuantity` of the
history row appended in the same request — both are the request body's
`quantity` value. -/
theorem persisted_quantity_matches_history (st : DBState)
    (rid userId newHistId : String) (now : Nat) (body : Body) (e : Resource)
    (v : JSVal) (hres : st.res = some e) (hq : body.quantity = some v) :
    ((putVariant1 st rid userId newHistId now body).state.res.map Resource.quantity
        = some v)
    ∧ ((putVariant1 st rid userId newHistId now body).state.hist.head?.map
          HistoryRecord.newQuantity = some v)
    ∧ ((putVariant2 st rid userId newHistId now body).state.res.map Resource.quantity
        = some v)
    ∧ ((putVariant2 st rid userId newHistId now body).state.hist.head?.map
          HistoryRecord.newQuantity = some v) := by
  simp [putVariant1, putVariant2, hres, hq]

/-- Witness for C10: a relative update (value −30) submitting quantity 70
persists 70 on the row and as newQuantity in the history row. -/
theorem persisted_quantity_matches_history_witness :
    ((putVariant1 (sampleState 100) "r1" "alice" "h1" 1 relBody70).state.res.map
        Resource.quantity = some (JSVal.jnum 70))
    ∧ ((putVariant1 (sampleState 100) "r1" "alice" "h1" 1 relBody70).state.hist.head?.map
        HistoryRecord.newQuantity = some (JSVal.jnum 70)) :=
  ⟨(persisted_quantity_matches_history (sampleState 100) "r1" "alice" "h1" 1 relBody70
      (sampleRow 100) (JSVal.jnum 70) rfl rfl).1,
   (persisted_quantity_matches_history (sampleState 100) "r1" "alice" "h1" 1 relBody70
      (sampleRow 100) (JSVal.jnum 70) rfl rfl).2.1⟩

/-- C5: every quantity-path request appends exactly one history row — with
that request's previousQuantity, newQuantity, changeAmount, changeType,
updatedBy and reason — on top of the unchanged prior history, and a
metadata-only request appends none, in both PUT variants. -/
theorem history_append_contract (st : DBState) (rid userId newHistId : String)
    (now : Nat) (body : Body) (e : Resource) (hres : st.res = some e) :
    (body.quantity.isSome → ∃ hr : HistoryRecord,
      (putVariant1 st rid userId newHistId now body).state.hist = hr :: st.hist
      ∧ (putVariant2 st rid userId newHistId now body).state.hist = hr :: st.hist
      ∧ hr.previousQuantity = e.quantity
      ∧ hr.newQuantity = body.quantity.getD JSVal.jundef
      ∧ hr.changeAmount =
          (if body.updateType.getD (JSVal.jstr "absolute") = JSVal.jstr "relative" then
            body.value.getD JSVal.jundef
          else jsSub (body.quantity.getD JSVal.jundef) e.quantity)
      ∧ hr.changeType = body.updateType.getD (JSVal.jstr "absolute")
      ∧ hr.updatedBy = userId
      ∧ hr.reason = body.reason.getD JSVal.jundef)
    ∧ (body.quantity = none →
      (putVariant1 st rid userId newHistId now body).state.hist = st.hist
      ∧ (putVariant2 st rid userId newHistId now body).state.hist = st.hist) := by
  constructor
  · intro hq
    refine ⟨{ id := newHistId, resourceId := rid,
              previousQuantity := e.quantity,
              newQuantity := body.quantity.getD JSVal.jundef,
              changeAmount :=
                if body.updateType.getD (JSVal.jstr "absolute") = JSVal.jstr "relative" then
                  body.value.getD JSVal.jundef
                else jsSub (body.quantity.getD JSVal.jundef) e.quantity,
              changeType := body.updateType.getD (JSVal.jstr "absolute"),
              updatedBy := userId,
              reason := body.reason.getD JSVal.jundef,
              createdAt := now }, ?_, ?_, rfl, rfl, rfl, rfl, rfl, rfl⟩ <;>
      simp [putVariant1, putVariant2, hres, hq]
  · intro hq
    constructor <;> simp [putVariant1, putVariant2, hres, hq]

/-- Witness for C5: the scenario update (40 → 120, absolute) appends exactly
one history row with previousQuantity 40. -/
theorem history_append_contract_witness :
    ∃ hr : HistoryRecord,
      (putVariant1 (sampleState 40) "r1" "alice" "h1" 1 absBody120).state.hist
        = hr :: (sampleState 40).hist
      ∧ hr.previousQuantity = JSVal.jnum 40 := by
  obtain ⟨hr, h1, _, h3, _⟩ :=
    (history_append_contract (sampleState 40) "r1" "alice" "h1" 1 absBody120
      (sampleRow 40) rfl).1 rfl
  exact ⟨hr, h1, h3⟩

/-- Concrete body with a `quantity` key holding JSON `null`, updateType
`relative`, and no `value` key: neither a usable quantity nor a usable
value is present. -/
def nullQtyBody : Body where
  quantity := some JSVal.jnull
  updateType := some (JSVal.jstr "relative")

/-- C1 counterexample: a relative update with value −30 against previous
quantity 100 whose body carries quantity 0.  The claim demands persisted
quantity and history newQuantity 100 + (−30) = 70, but the code persists
the body's quantity field: both are 0, while changeAmount is −30. -/
theorem relative_update_counterexample :
    ((putVariant1 (sampleState 100) "r1" "alice" "h1" 1 relBody0).state.res.map
        Resource.quantity = some (JSVal.jnum 0))
    ∧ ((putVariant1 (sampleState 100) "r1" "alice" "h1" 1 relBody0).state.hist.head?.map
        HistoryRecord.newQuantity = some (JSVal.jnum 0))
    ∧ ((putVariant1 (sampleState 100) "r1" "alice" "h1" 1 relBody0).state.hist.head?.map
        HistoryRecord.previousQuantity = some (JSVal.jnum 100))
    ∧ ((putVariant1 (sampleState 100) "r1" "alice" "h1" 1 relBody0).state.hist.head?.map
        HistoryRecord.changeAmount = some (JSVal.jnum (-30)))
    ∧ JSVal.jnum 0 ≠ JSVal.jnum (100 + (-30)) :=
  ⟨rfl, rfl, rfl, rfl, by decide⟩

/-- C1 as amended: in relative mode the recorded changeAmount is the
caller-supplied `value`, but the persisted quantity and the history row's
newQuantity are the request body's `quantity` field — they equal
previousQuantity + value only when the caller submits that sum as
`quantity`.  Holds in both PUT variants. -/
theorem relative_update_contract (st : DBState) (rid userId newHistId : String)
    (now : Nat) (body : Body) (e : Resource) (qv : JSVal) (v : Int)
    (hres : st.res = some e) (hq : body.quantity = some qv)
    (hmode : body.updateType = some (JSVal.jstr "relative"))
    (hv : body.value = some (JSVal.jnum v)) :
    ((putVariant1 st rid userId newHistId now body).state.hist.head?.map
        HistoryRecord.changeAmount = some (JSVal.jnum v))
    ∧ ((putVariant1 st rid userId newHistId now body).state.res.map
        Resource.quantity = some qv)
    ∧ ((putVariant1 st rid userId newHistId now body).state.hist.head?.map
        HistoryRecord.newQuantity = some qv)
    ∧ ((putVariant2 st rid userId newHistId now body).state.hist.head?.map
        HistoryRecord.changeAmount = some (JSVal.jnum v))
    ∧ ((putVariant2 st rid userId newHistId now body).state.res.map
        Resource.quantity = some qv)
    ∧ ((putVariant2 st rid userId newHistId now body).state.hist.head?.map
        HistoryRecord.newQuantity = some qv) := by
  refine ⟨?_, ?_, ?_, ?_, ?_, ?_⟩ <;>
    simp [putVariant1, putVariant2, hres, hq, hmode, hv]

/-- Witness for the amended C1: previous quantity 100, value −30, caller
submitting quantity 70 — changeAmount −30 is recorded and quantity 70
persisted. -/
theorem relative_update_contract_witness :
    ((putVariant1 (sampleState 100) "r1" "alice" "h1" 1 relBody70).state.hist.head?.map
        HistoryRecord.changeAmount = some (JSVal.jnum (-30)))
    ∧ ((putVariant1 (sampleState 100) "r1" "alice" "h1" 1 relBody70).state.res.map
        Resource.quantity = some (JSVal.jnum 70)) :=
  ⟨(relative_update_contract (sampleState 100) "r1" "alice" "h1" 1 relBody70
      (sampleRow 100) (JSVal.jnum 70) (-30) rfl rfl rfl rfl).1,
   (relative_update_contract (sampleState 100) "r1" "alice" "h1" 1 relBody70
      (sampleRow 100) (JSVal.jnum 70) (-30) rfl rfl rfl rfl).2.1⟩

/-- C2 evaluated at the spec §8 scenario (quantity 40 → 120 absolute,
changeAmount 80 ≠ 0), in both variants: the external-call log is empty —
the imported `awardPoints` (ScoringEngine) is never invoked — and the
response is only `{ message: 'Quantity updated' }`, carrying neither the
updated Resource nor any points, contrary to the claim. -/
theorem scoring_never_invoked_scenario :
    (putVariant1 (sampleState 40) "r1" "alice" "h1" 1 absBody120).calls = []
    ∧ (putVariant2 (sampleState 40) "r1" "alice" "h1" 1 absBody120).calls = []
    ∧ (putVariant1 (sampleState 40) "r1" "alice" "h1" 1 absBody120).response
        = PutResponse.ok "Quantity updated"
    ∧ ((putVariant1 (sampleState 40) "r1" "alice" "h1" 1 absBody120).state.hist.head?.map
        HistoryRecord.changeAmount = some (JSVal.jnum 80)) :=
  ⟨rfl, rfl, rfl, rfl⟩

/-- C3 evaluated at the spec §8 scenario: the quantity path is two separate
awaits with no enclosing transaction, so when the history insert fails
after the quantity update has committed, the externally observable store
state has the new quantity 120 (previously 40) and no history row — a
quantity-without-history state, contrary to the claim. -/
theorem quantity_without_history_state :
    ((quantityPathAfterFirstWrite (sampleState 40) "alice" 1 absBody120).res.map
        Resource.quantity = some (JSVal.jnum 120))
    ∧ (quantityPathAfterFirstWrite (sampleState 40) "alice" 1 absBody120).hist = []
    ∧ ((sampleState 40).res.map Resource.quantity = some (JSVal.jnum 40)) :=
  ⟨rfl, rfl, rfl⟩

/-- C7 counterexample: a body whose `quantity` is JSON `null` with
updateType `relative` and no `value` — no usable quantity or value — is not
rejected: the update succeeds with `{ message: 'Quantity updated' }`,
persists `null` as the quantity, and records the non-numeric `undefined` as
changeAmount.  No `InvalidUpdateRequest` failure exists in the code. -/
theorem quantity_path_accepts_unusable_request :
    (putVariant1 (sampleState 100) "r1" "alice" "h1" 1 nullQtyBody).response
      = PutResponse.ok "Quantity updated"
    ∧ ((putVariant1 (sampleState 100) "r1" "alice" "h1" 1 nullQtyBody).state.res.map
        Resource.quantity = some JSVal.jnull)
    ∧ ((putVariant1 (sampleState 100) "r1" "alice" "h1" 1 nullQtyBody).state.hist.head?.map
        HistoryRecord.changeAmount = some JSVal.jundef) :=
  ⟨rfl, rfl, rfl⟩

/-- C7 as amended: the quantity path performs no request validation at all —
whenever the resource exists and the body has a `quantity` key, the update
succeeds with `{ message: 'Quantity updated' }` in both variants, whatever
the quantity and value fields hold. -/
theorem quantity_path_never_rejects (st : DBState) (rid userId newHistId : String)
    (now : Nat) (body : Body) (e : Resource)
    (hres : st.res = some e) (hq : body.quantity.isSome) :
    (putVariant1 st rid userId newHistId now body).response
      = PutResponse.ok "Quantity updated"
    ∧ (putVariant2 st rid userId newHistId now body).response
      = PutResponse.ok "Quantity updated" := by
  constructor <;> simp [putVariant1, putVariant2, hres, hq]

/-- Witness for the amended C7: the unusable `null`-quantity request
succeeds. -/
theorem quantity_path_never_rejects_witness :
    (putVariant1 (sampleState 100) "r1" "alice" "h1" 1 nullQtyBody).response
      = PutResponse.ok "Quantity updated" :=
  (quantity_path_never_rejects (sampleState 100) "r1" "alice" "h1" 1 nullQtyBody
    (sampleRow 100) rfl rfl).1

/-- Concrete metadata body whose only key is `description` with the falsy
value `""`. -/
def emptyDescBody : Body := { description := some (JSVal.jstr "") }

/-- C4 counterexample: in PUT variant 1 a metadata request carrying the
explicitly present falsy value `description: ""` is ignored — the spread
`...(description && { description })` is keyed on truthiness — so the old
description "Old" survives, contrary to the presence-keyed merge the claim
states for every metadata-path request. -/
theorem metadata_falsy_skipped :
    ((putVariant1 (sampleState 40) "r1" "alice" "h1" 1 emptyDescBody).state.res.map
        Resource.description = some (JSVal.jstr "Old"))
    ∧ (putVariant1 (sampleState 40) "r1" "alice" "h1" 1 emptyDescBody).response
        = PutResponse.ok "Metadata updated"
    ∧ emptyDescBody.description = some (JSVal.jstr "")
    ∧ JSVal.jstr "Old" ≠ JSVal.jstr "" :=
  ⟨rfl, rfl, rfl, by decide⟩

/-- C4 as amended: on the metadata path both variants leave the quantity
and the history unchanged; variant 2 merges each of the six fields exactly
when its key is present (falsy values included); variant 1 is
presence-keyed only for targetQuantity and multiplier (any value other than
`undefined` is applied) while name, imageUrl, category and description are
applied only when present and truthy, falsy values being skipped. -/
theorem metadata_merge_contract (st : DBState) (rid userId newHistId : String)
    (now : Nat) (body : Body) (e : Resource)
    (hres : st.res = some e) (hq : body.quantity = none) :
    ((putVariant1 st rid userId newHistId now body).state.res.map Resource.quantity
        = some e.quantity)
    ∧ ((putVariant2 st rid userId newHistId now body).state.res.map Resource.quantity
        = some e.quantity)
    ∧ ((putVariant1 st rid userId newHistId now body).state.hist = st.hist)
    ∧ ((putVariant2 st rid userId newHistId now body).state.hist = st.hist)
    ∧ ((putVariant2 st rid userId newHistId now body).state.res.map Resource.name
        = some (body.name.getD e.name))
    ∧ ((putVariant2 st rid userId newHistId now body).state.res.map Resource.imageUrl
        = some (body.imageUrl.getD e.imageUrl))
    ∧ ((putVariant2 st rid userId newHistId now body).state.res.map Resource.category
        = some (body.category.getD e.category))
    ∧ ((putVariant2 st rid userId newHistId now body).state.res.map Resource.description
        = some (body.description.getD e.description))
    ∧ ((putVariant2 st rid userId newHistId now body).state.res.map Resource.targetQuantity
        = some (body.targetQuantity.getD e.targetQuantity))
    ∧ ((putVariant2 st rid userId newHistId now body).state.res.map Resource.multiplier
        = some (body.multiplier.getD e.multiplier))
    ∧ (∀ w, body.name = some w →
        (putVariant1 st rid userId newHistId now body).state.res.map Resource.name
          = some (if w.truthy then w else e.name))
    ∧ (body.name = none →
        (putVariant1 st rid userId newHistId now body).state.res.map Resource.name
          = some e.name)
    ∧ (∀ w, body.imageUrl = some w →
        (putVariant1 st rid userId newHistId now body).state.res.map Resource.imageUrl
          = some (if w.truthy then w else e.imageUrl))
    ∧ (body.imageUrl = none →
        (putVariant1 st rid userId newHistId now body).state.res.map Resource.imageUrl
          = some e.imageUrl)
    ∧ (∀ w, body.category = some w →
        (putVariant1 st rid userId newHistId now body).state.res.map Resource.category
          = some (if w.truthy then w else e.category))
    ∧ (body.category = none →
        (putVariant1 st rid userId newHistId now body).state.res.map Resource.category
          = some e.category)
    ∧ (∀ w, body.description = some w →
        (putVariant1 st rid userId newHistId now body).state.res.map Resource.description
          = some (if w.truthy then w else e.description))
    ∧ (body.description = none →
        (putVariant1 st rid userId newHistId now body).state.res.map Resource.description
          = some e.description)
    ∧ (∀ w, body.targetQuantity = some w → w ≠ JSVal.jundef →
        (putVariant1 st rid userId newHistId now body).state.res.map Resource.targetQuantity
          = some w)
    ∧ (body.targetQuantity = none →
        (putVariant1 st rid userId newHistId now body).state.res.map Resource.targetQuantity
          = some e.targetQuantity)
    ∧ (∀ w, body.multiplier = some w → w ≠ JSVal.jundef →
        (putVariant1 st rid userId newHistId now body).state.res.map Resource.multiplier
          = some w)
    ∧ (body.multiplier = none →
        (putVariant1 st rid userId newHistId now body).state.res.map Resource.multiplier
          = some e.multiplier) := by
  refine ⟨?_, ?_, ?_, ?_, ?_, ?_, ?_, ?_, ?_, ?_, ?_, ?_, ?_, ?_, ?_, ?_, ?_, ?_,
    ?_, ?_, ?_, ?_⟩
  · simp [putVariant1, hres, hq]
  · simp [putVariant2, hres, hq]
  · simp [putVariant1, hres, hq]
  · simp [putVariant2, hres, hq]
  · simp [putVariant2, hres, hq]
  · simp [putVariant2, hres, hq]
  · simp [putVariant2, hres, hq]
  · simp [putVariant2, hres, hq]
  · simp [putVariant2, hres, hq]
  · simp [putVariant2, hres, hq]
  · intro w hw
    simp [putVariant1, hres, hq, hw]
  · intro hw
    simp [putVariant1, hres, hq, hw, JSVal.truthy]
  · intro w hw
    simp [putVariant1, hres, hq, hw]
  · intro hw
    simp [putVariant1, hres, hq, hw, JSVal.truthy]
  · intro w hw
    simp [putVariant1, hres, hq, hw]
  · intro hw
    simp [putVariant1, hres, hq, hw, JSVal.truthy]
  · intro w hw
    simp [putVariant1, hres, hq, hw]
  · intro hw
    simp [putVariant1, hres, hq, hw, JSVal.truthy]
  · intro w hw hne
    simp [putVariant1, hres, hq, hw, hne]
  · intro hw
    simp [putVariant1, hres, hq, hw]
  · intro w hw hne
    simp [putVariant1, hres, hq, hw, hne]
  · intro hw
    simp [putVariant1, hres, hq, hw]

/-- Witness for the amended C4: the `description: ""` metadata request,
run through variant 2, applies the empty description and leaves quantity
40 unchanged. -/
theorem metadata_merge_contract_witness :
    ((putVariant2 (sampleState 40) "r1" "alice" "h1" 1 emptyDescBody).state.res.map
        Resource.description
      = some (emptyDescBody.description.getD (sampleRow 40).description))
    ∧ ((putVariant2 (sampleState 40) "r1" "alice" "h1" 1 emptyDescBody).state.res.map
        Resource.quantity = some (sampleRow 40).quantity) :=
  ⟨(metadata_merge_contract (sampleState 40) "r1" "alice" "h1" 1 emptyDescBody
      (sampleRow 40) rfl rfl).2.2.2.2.2.2.2.1,
   (metadata_merge_contract (sampleState 40) "r1" "alice" "h1" 1 emptyDescBody
      (sampleRow 40) rfl rfl).2.1⟩

/-- C6 counterexample: on the metadata request `description: ""` the two
PUT variants leave the store in different states (variant 1 keeps the old
description, variant 2 overwrites it with ""), so they are not
observationally equivalent. -/
theorem variants_differ_on_metadata :
    (putVariant1 (sampleState 40) "r1" "alice" "h1" 1 emptyDescBody).state
      ≠ (putVariant2 (sampleState 40) "r1" "alice" "h1" 1 emptyDescBody).state := by
  decide

/-- C6 as amended: the two variants agree on every quantity-path request
(their quantity paths are textually identical), and on a metadata request
whenever each of name, imageUrl, category and description is absent or
present with a truthy value, and neither targetQuantity nor multiplier is
present with value `undefined` (which a JSON body cannot carry anyway);
they diverge exactly when one of the four truthiness-checked fields is
present with a falsy value. -/
theorem variants_agree_contract (st : DBState) (rid userId newHistId : String)
    (now : Nat) (body : Body) :
    (body.quantity.isSome →
      putVariant1 st rid userId newHistId now body
        = putVariant2 st rid userId newHistId now body)
    ∧ ((∀ w, body.name = some w → w.truthy = true) →
       (∀ w, body.imageUrl = some w → w.truthy = true) →
       (∀ w, body.category = some w → w.truthy = true) →
       (∀ w, body.description = some w → w.truthy = true) →
       body.targetQuantity ≠ some JSVal.jundef →
       body.multiplier ≠ some JSVal.jundef →
      putVariant1 st rid userId newHistId now body
        = putVariant2 st rid userId newHistId now body) := by
  constructor
  · intro hq
    cases hres : st.res with
    | none => simp [putVariant1, putVariant2, hres]
    | some e => simp [putVariant1, putVariant2, hres, hq]
  · intro hn hi hc hd ht hm
    cases hres : st.res with
    | none => simp [putVariant1, putVariant2, hres]
    | some e =>
      cases hq : body.quantity with
      | some v => simp [putVariant1, putVariant2, hres, hq]
      | none =>
        have hname : (if (body.name.getD JSVal.jundef).truthy then
              body.name.getD JSVal.jundef else e.name) = body.name.getD e.name := by
          cases hb : body.name with
          | none => simp [JSVal.truthy]
          | some w => simp [hn w hb]
        have himg : (if (body.imageUrl.getD JSVal.jundef).truthy then
              body.imageUrl.getD JSVal.jundef else e.imageUrl)
            = body.imageUrl.getD e.imageUrl := by
          cases hb : body.imageUrl with
          | none => simp [JSVal.truthy]
          | some w => simp [hi w hb]
        have hcat : (if (body.category.getD JSVal.jundef).truthy then
              body.category.getD JSVal.jundef else e.category)
            = body.category.getD e.category := by
          cases hb : body.category with
          | none => simp [JSVal.truthy]
          | some w => simp [hc w hb]
        have hdesc : (if (body.description.getD JSVal.jundef).truthy then
              body.description.getD JSVal.jundef else e.description)
            = body.description.getD e.description := by
          cases hb : body.description with
          | none => simp [JSVal.truthy]
          | some w => simp [hd w hb]
        have htq : (if body.targetQuantity.getD JSVal.jundef ≠ JSVal.jundef then
              body.targetQuantity.getD JSVal.jundef else e.targetQuantity)
            = body.targetQuantity.getD e.targetQuantity := by
          cases hb : body.targetQuantity with
          | none => simp
          | some w =>
            have hwne : w ≠ JSVal.jundef := by
              intro hcon
              exact ht (by rw [hb, hcon])
            simp [hwne]
        have hmul : (if body.multiplier.getD JSVal.jundef ≠ JSVal.jundef then
              body.multiplier.getD JSVal.jundef else e.multiplier)
            = body.multiplier.getD e.multiplier := by
          cases hb : body.multiplier with
          | none => simp
          | some w =>
            have hwne : w ≠ JSVal.jundef := by
              intro hcon
              exact hm (by rw [hb, hcon])
            simp [hwne]
        simp [putVariant1, putVariant2, hres, hq, hname, himg, hcat, hdesc, htq, hmul]

/-- Witness for the amended C6: on the scenario quantity update both
variants produce the same run. -/
theorem variants_agree_contract_witness :
    putVariant1 (sampleState 40) "r1" "alice" "h1" 1 absBody120
      = putVariant2 (sampleState 40) "r1" "alice" "h1" 1 absBody120 :=
  (variants_agree_contract (sampleState 40) "r1" "alice" "h1" 1 absBody120).1 rfl

end ResourceTracker
